import Mathlib

/-!
Shallow embedding of the rotating file sink (FileHandler) of the logger
repository, following the newest revision of the source (logger.go):
the FileHandler struct, Write, Close, rotateLog, findSequence,
newFileHandler, the policy setters, and one fire of the rotateDaily loop.

File-system effects are modelled by an explicit FS value: a finite map
from path names to content tags.  A tag changes exactly when the file's
content is replaced wholesale (a rename over it); appending keeps the
tag, so a changed tag at a path witnesses that the pre-existing file
there was clobbered.  External I/O outcomes that the code merely
observes (the result of the underlying file write, and injected failures
of os.Rename / os.OpenFile) are inputs of the model.
-/

namespace Logger

/-- Errors returned by the modelled operations.  errNew is a Go
errors.New with the literal message built by the source; osRename and
osOpen stand for injected operating-system failures of os.Rename and
os.OpenFile; underlying carries an error returned by the underlying
fh.out.Write call. -/
inductive Err where
  | errNew (msg : String)
  | osRename
  | osOpen
  | underlying (msg : String)
deriving DecidableEq, Repr

/-- The file system: an association list from path names to content
tags, plus a counter supplying fresh tags for newly created files. -/
structure FS where
  files : List (String × Nat)
  nextId : Nat
deriving DecidableEq, Repr

/-- os.Stat: the content tag at a path, none when the file is missing. -/
def FS.stat (fs : FS) (p : String) : Option Nat :=
  (fs.files.find? (fun e => e.1 == p)).map (fun e => e.2)

/-- Whether a file exists at the path (os.Stat succeeding). -/
def FS.existsFile (fs : FS) (p : String) : Bool :=
  (fs.stat p).isSome

/-- Remove every entry at the path. -/
def FS.removeFile (fs : FS) (p : String) : FS :=
  { fs with files := fs.files.filter (fun e => e.1 != p) }

/-- Install content tag t at the path, replacing any previous entry. -/
def FS.putFile (fs : FS) (p : String) (t : Nat) : FS :=
  { fs with files := (p, t) :: (fs.removeFile p).files }

/-- os.Rename src dst: moves the content tag of src onto dst
(clobbering any file previously at dst); fails with a not-exist error
(modelled as none) when src is missing. -/
def FS.rename (fs : FS) (src dst : String) : Option FS :=
  match fs.stat src with
  | none => none
  | some t => some ((fs.removeFile src).putFile dst t)

/-- os.OpenFile with O_WRONLY, O_APPEND and O_CREATE: appending keeps an
existing file's tag; a missing file is created with a fresh tag. -/
def FS.openAppendCreate (fs : FS) (p : String) : FS :=
  match fs.stat p with
  | some _ => fs
  | none => { files := (p, fs.nextId) :: fs.files, nextId := fs.nextId + 1 }

/-- The FileHandler struct of the source.  written and size are Go uint
(64-bit, updates reduced mod 2^64 where the source can overflow); rotate
and seq are Go byte (increments reduced mod 256).  The out field models
the *os.File pointer: none is a nil pointer, some true an open handle,
some false a handle that has been closed but not reassigned. -/
structure FileHandler where
  filePath : String
  written : Nat
  rotate : Nat
  size : Nat
  seq : Nat
  compress : Bool
  daily : Bool
  out : Option Bool
deriving DecidableEq, Repr

/-- Go uint is 64 bits wide on the platforms the source targets. -/
def uintMod : Nat := 2 ^ 64

/-- Injected failures for the operating-system calls of rotateLog. -/
structure Fault where
  renameFail : Bool
  openFail : Bool
deriving DecidableEq, Repr

/-- No injected operating-system failures. -/
def Fault.noFault : Fault := { renameFail := false, openFail := false }

/-- Result of rotateLog: the mutated handler (the Go method mutates the
receiver even on the error path), the file system, the error if any
(err = none means a fresh open handle at filePath was returned), and a
ghost record of the retirement rename performed, if any. -/
structure RotateResult where
  fh : FileHandler
  fs : FS
  err : Option Err
  renamedTo : Option String
deriving DecidableEq, Repr

/-- Last step of rotateLog: os.OpenFile(fh.filePath, wronly+append+create,
0640), returning the fresh handle or propagating the open error. -/
def rotateOpen (fh : FileHandler) (fs : FS) (fault : Fault)
    (renamed : Option String) : RotateResult :=
  if fault.openFail then
    { fh := fh, fs := fs, err := some Err.osOpen, renamedTo := renamed }
  else
    { fh := fh, fs := fs.openAppendCreate fh.filePath, err := none,
      renamedTo := renamed }

/-- rotateLog of the source: close the current handle if present, wrap
seq to 1 when it exceeds rotate (only when rotate > 0), rename the live
file onto filePath.seq when the live file exists (then launch the
detached compression task when compress is set, and increment seq as a
byte), and reopen filePath for append. -/
def FileHandler.rotateLog (fh : FileHandler) (fs : FS) (fault : Fault) :
    RotateResult :=
  let fh := if fh.out.isSome then { fh with out := some false } else fh
  if fh.rotate > 0 then
    let fh := if fh.seq > fh.rotate then { fh with seq := 1 } else fh
    let rotateFileName := fh.filePath ++ "." ++ toString fh.seq
    if fs.existsFile fh.filePath then
      if fault.renameFail then
        { fh := fh, fs := fs, err := some Err.osRename, renamedTo := none }
      else
        match fs.rename fh.filePath rotateFileName with
        | none =>
            { fh := fh, fs := fs, err := some Err.osRename, renamedTo := none }
        | some fs' =>
            rotateOpen { fh with seq := (fh.seq + 1) % 256 } fs' fault
              (some rotateFileName)
    else
      rotateOpen fh fs fault none
  else
    rotateOpen fh fs fault none

/-- Outcome of the underlying fh.out.Write(b) call, an input of the
model since it is external I/O: bytes accepted and the error, if any. -/
structure WriteOutcome where
  n : Nat
  err : Option String
deriving DecidableEq, Repr

/-- Result of FileHandler.Write: the handler, the file system, the
returned byte count and error, and a ghost flag recording whether the
size-rotation branch invoked rotateLog. -/
structure WriteResult where
  fh : FileHandler
  fs : FS
  n : Nat
  err : Option Err
  rotated : Bool
deriving DecidableEq, Repr

/-- Write of the source: perform the underlying write (its outcome is
the input outc), return its error if any; report a short write with an
error naming the file; otherwise, under the mutex, add the accepted
count to written (Go uint addition) and, when
not daily and rotate > 0 and size > 0 and written >= size,
rotate inline, resetting written to 0 and installing the new handle on
success, or returning the rotation error. -/
def FileHandler.Write (fh : FileHandler) (fs : FS) (b : List Nat)
    (outc : WriteOutcome) (fault : Fault) : WriteResult :=
  match outc.err with
  | some e =>
      { fh := fh, fs := fs, n := outc.n, err := some (Err.underlying e),
        rotated := false }
  | none =>
      if outc.n < b.length then
        { fh := fh, fs := fs, n := outc.n,
          err := some (Err.errNew ("Unable to write all bytes to " ++ fh.filePath)),
          rotated := false }
      else
        let fh := { fh with written := (fh.written + outc.n) % uintMod }
        if !fh.daily && decide (fh.rotate > 0) && decide (fh.size > 0)
            && decide (fh.written ≥ fh.size) then
          let r := fh.rotateLog fs fault
          match r.err with
          | some e =>
              { fh := r.fh, fs := r.fs, n := outc.n, err := some e,
                rotated := true }
          | none =>
              { fh := { r.fh with written := 0, out := some true },
                fs := r.fs, n := outc.n, err := none, rotated := true }
        else
          { fh := fh, fs := fs, n := outc.n, err := none, rotated := false }

/-- Close of the source, indexed by fuel: the body is
  if fh.out != nil then return fh.Close() else return nil,
a recursive call that re-enters the very same body without changing any
state and without ever closing the handle.  A result of none means the
fuel ran out with the recursion still going (the call does not
terminate); some none is the nil error returned when out is nil. -/
def CloseFuel : Nat → FileHandler → Option (Option Err)
  | 0, _ => none
  | k + 1, fh => if fh.out.isSome then CloseFuel k fh else some none

/-- Retirement file name probed by findSequence: filePath.seq, or
filePath.seq.gz when compression is on. -/
def seqFileName (compress : Bool) (path : String) (seq : Nat) : String :=
  if compress then path ++ "." ++ toString seq ++ ".gz"
  else path ++ "." ++ toString seq

/-- Loop of findSequence, indexed by fuel: probe the candidate name at
seq; stop when it does not exist, else increment seq as a byte and
retry.  The candidates repeat with period 256, so fuel 256 is exact:
none models the Go loop running forever because every candidate
exists. -/
def findSequenceFuel (fs : FS) (compress : Bool) (path : String) :
    Nat → Nat → Option Nat
  | 0, _ => none
  | fuel + 1, seq =>
      if fs.existsFile (seqFileName compress path seq) then
        findSequenceFuel fs compress path fuel ((seq + 1) % 256)
      else
        some seq

/-- findSequence of the source: advance seq to the first candidate
retirement name not present on disk (none when the probe never
terminates). -/
def FileHandler.findSequence (fh : FileHandler) (fs : FS) :
    Option FileHandler :=
  (findSequenceFuel fs fh.compress fh.filePath 256 fh.seq).map
    (fun s => { fh with seq := s })

/-- newFileHandler of the source: build the handler, run findSequence,
run rotateLog, and install the returned handle.  The outer none models
the probe never terminating; the inner error propagates a rotateLog
failure. -/
def newFileHandler (filePath : String) (maxFileSize : Nat)
    (maxRotation : Nat) (startSeq : Nat) (compress daily : Bool)
    (fs : FS) (fault : Fault) : Option (Except Err (FileHandler × FS)) :=
  let fh : FileHandler :=
    { filePath := filePath, written := 0, rotate := maxRotation,
      size := maxFileSize, seq := startSeq, compress := compress,
      daily := daily, out := none }
  match fh.findSequence fs with
  | none => none
  | some fh =>
      let r := fh.rotateLog fs fault
      match r.err with
      | some e => some (Except.error e)
      | none => some (Except.ok ({ r.fh with out := some true }, r.fs))

/-- One fire of the rotateDaily loop of the source: rotate, then set
written to 0 and out to the returned handle whether or not the rotation
succeeded (on failure the returned handle is nil). -/
def FileHandler.rotateDailyFire (fh : FileHandler) (fs : FS)
    (fault : Fault) : FileHandler × FS :=
  let r := fh.rotateLog fs fault
  match r.err with
  | some _ => ({ r.fh with written := 0, out := none }, r.fs)
  | none => ({ r.fh with written := 0, out := some true }, r.fs)

/-- SetRotate of the source (body runs under the mutex). -/
def FileHandler.SetRotate (fh : FileHandler) (v : Nat) : FileHandler :=
  { fh with rotate := v }

/-- SetSize of the source (body runs under the mutex). -/
def FileHandler.SetSize (fh : FileHandler) (v : Nat) : FileHandler :=
  { fh with size := v }

/-- SetCompress of the source (body runs under the mutex). -/
def FileHandler.SetCompress (fh : FileHandler) (v : Bool) : FileHandler :=
  { fh with compress := v }

/-- SetSeq of the source (body runs under the mutex). -/
def FileHandler.SetSeq (fh : FileHandler) (v : Nat) : FileHandler :=
  { fh with seq := v }

/-- SetDaily of the source (body runs under the mutex; the 0-to-1
transition also spawns the rotateDaily loop, not modelled here). -/
def FileHandler.SetDaily (fh : FileHandler) (v : Bool) : FileHandler :=
  { fh with daily := v }

/-- Atomic actions of the source methods, in source order, used to state
which steps happen between mutex.Lock and the deferred mutex.Unlock. -/
inductive WAct where
  | outWrite
  | lock
  | unlock
  | incWritten
  | rotClose
  | rotRename
  | rotOpen
  | setField
deriving DecidableEq, Repr

/-- Action sequence of FileHandler.Write on the full-success path, in
source order: the underlying fh.out.Write call, then mutex.Lock, then
the written update, then (when the size predicate holds) the inline
rotation steps, then the deferred mutex.Unlock on return. -/
def writeActs (rotates : Bool) : List WAct :=
  [WAct.outWrite, WAct.lock, WAct.incWritten] ++
    (if rotates then [WAct.rotClose, WAct.rotRename, WAct.rotOpen] else []) ++
    [WAct.unlock]

/-- Action sequence of each policy setter: mutex.Lock, the field store,
the deferred mutex.Unlock. -/
def setterActs : List WAct := [WAct.lock, WAct.setField, WAct.unlock]

/-- Whether the action sits strictly between the lock acquisition and
the unlock in the given action sequence. -/
def underLock (a : WAct) (acts : List WAct) : Bool :=
  decide (acts.indexOf WAct.lock < acts.indexOf a) &&
    decide (acts.indexOf a < acts.indexOf WAct.unlock)

/-- Iterate fault-free rotations, collecting the ghost record of the
retirement rename of each, and return the final state. -/
def iterateRotations : FileHandler → FS → Nat →
    List (Option String) × FileHandler × FS
  | fh, fs, 0 => ([], fh, fs)
  | fh, fs, n + 1 =>
      let r := fh.rotateLog fs Fault.noFault
      let rest := iterateRotations r.fh r.fs n
      (r.renamedTo :: rest.1, rest.2)

/-- Run a list of Write calls, threading handler and file system; each
call carries its record, its underlying-write outcome and its injected
faults. -/
def writeSeq : FileHandler → FS → List (List Nat × WriteOutcome × Fault) →
    FileHandler × FS
  | fh, fs, [] => (fh, fs)
  | fh, fs, (b, outc, fault) :: rest =>
      let r := fh.Write fs b outc fault
      writeSeq r.fh r.fs rest

/-- Project the file handler and file system out of a successful
newFileHandler result. -/
def afterNew (o : Option (Except Err (FileHandler × FS))) :
    Option (FileHandler × FS) :=
  match o with
  | some (Except.ok x) => some x
  | _ => none

/-! Basic facts about the file-system model. -/

theorem find?_filter_ne (l : List (String × Nat)) (p q : String)
    (h : q ≠ p) :
    (l.filter (fun e => e.1 != p)).find? (fun e => e.1 == q) =
      l.find? (fun e => e.1 == q) := by
  induction l with
  | nil => rfl
  | cons a l ih =>
      by_cases ha : a.1 = p
      · have hpq : (p == q) = false := by
          simp only [beq_eq_false_iff_ne, ne_eq]
          exact fun hp => h hp.symm
        simp [List.filter_cons, ha, List.find?, hpq, ih]
      · have ha' : (a.1 != p) = true := by simp [ha]
        by_cases haq : a.1 = q
        · simp [List.filter_cons, ha', List.find?, haq, h]
        · have haq' : (a.1 == q) = false := by simp [haq]
          simp [List.filter_cons, ha', List.find?, haq', ih]

theorem FS.stat_removeFile_ne (fs : FS) (p q : String) (h : q ≠ p) :
    (fs.removeFile p).stat q = fs.stat q := by
  simp [FS.stat, FS.removeFile, find?_filter_ne fs.files p q h]

theorem FS.stat_putFile (fs : FS) (p : String) (t : Nat) (q : String) :
    (fs.putFile p t).stat q = if q = p then some t else fs.stat q := by
  by_cases hq : q = p
  · simp [FS.putFile, FS.stat, List.find?, hq]
  · have hpq : (p == q) = false := by
      simp
      exact fun hp => hq hp.symm
    simp [FS.putFile, FS.stat, List.find?, hpq, hq]
    have := fs.stat_removeFile_ne p q hq
    simpa [FS.stat] using this

theorem FS.stat_openAppendCreate_ne (fs : FS) (p q : String) (h : q ≠ p) :
    (fs.openAppendCreate p).stat q = fs.stat q := by
  unfold FS.openAppendCreate
  cases hfs : fs.stat p with
  | some t => rfl
  | none =>
      have hpq : (p == q) = false := by
        simp
        exact fun hp => h hp.symm
      simp [FS.stat, List.find?, hpq]

theorem FS.stat_openAppendCreate_self (fs : FS) (p : String) :
    (fs.openAppendCreate p).stat p =
      some ((fs.stat p).getD fs.nextId) := by
  unfold FS.openAppendCreate
  cases hfs : fs.stat p with
  | some t => simp [hfs]
  | none => simp [FS.stat, List.find?]

theorem FS.existsFile_openAppendCreate_self (fs : FS) (p : String) :
    (fs.openAppendCreate p).existsFile p = true := by
  simp [FS.existsFile, fs.stat_openAppendCreate_self p]

theorem FS.rename_of_stat (fs : FS) (src dst : String) (t : Nat)
    (h : fs.stat src = some t) :
    fs.rename src dst = some ((fs.removeFile src).putFile dst t) := by
  simp [FS.rename, h]

theorem ne_self_append_dot (p s : String) : p ≠ p ++ "." ++ s := by
  intro h
  have h2 : p.length = (p ++ "." ++ s).length := congrArg String.length h
  rw [String.length_append, String.length_append] at h2
  have hdot : ("." : String).length = 1 := rfl
  omega

/-- The sequence value rotateLog actually uses to name the retirement
file: the stored value, wrapped to 1 when it exceeds rotate. -/
def usedSeq (fh : FileHandler) : Nat :=
  if fh.rotate < fh.seq then 1 else fh.seq

/-- Fault-free rotateLog with rotation enabled and the live file
present: the live file is renamed onto filePath.usedSeq, the stored
sequence becomes usedSeq + 1 as a byte, and a fresh handle is opened at
filePath. -/
theorem rotateLog_ok (fh : FileHandler) (fs : FS) (t : Nat)
    (h1 : 0 < fh.rotate) (hstat : fs.stat fh.filePath = some t) :
    fh.rotateLog fs Fault.noFault =
      { fh := { fh with
                  seq := (usedSeq fh + 1) % 256,
                  out := if fh.out.isSome then some false else fh.out },
        fs := ((fs.removeFile fh.filePath).putFile
                 (fh.filePath ++ "." ++ toString (usedSeq fh)) t).openAppendCreate
                 fh.filePath,
        err := none,
        renamedTo := some (fh.filePath ++ "." ++ toString (usedSeq fh)) } := by
  have hex : fs.existsFile fh.filePath = true := by
    simp [FS.existsFile, hstat]
  cases ho : fh.out with
  | none =>
      by_cases hw : fh.rotate < fh.seq
      · simp [FileHandler.rotateLog, rotateOpen, Fault.noFault, ho, h1, hw,
          hex, hstat, FS.rename, usedSeq]
      · have hw' : ¬ fh.seq > fh.rotate := hw
        simp [FileHandler.rotateLog, rotateOpen, Fault.noFault, ho, h1, hw',
          hex, hstat, FS.rename, usedSeq, hw]
  | some b =>
      by_cases hw : fh.rotate < fh.seq
      · simp [FileHandler.rotateLog, rotateOpen, Fault.noFault, ho, h1, hw,
          hex, hstat, FS.rename, usedSeq]
      · have hw' : ¬ fh.seq > fh.rotate := hw
        simp [FileHandler.rotateLog, rotateOpen, Fault.noFault, ho, h1, hw',
          hex, hstat, FS.rename, usedSeq, hw]

/-! Concrete fixtures used by witnesses and counterexamples. -/

/-- Empty disk. -/
def fsEmpty : FS := { files := [], nextId := 0 }

/-- Disk holding only the live file. -/
def fs0 : FS := { files := [("log", 0)], nextId := 1 }

/-- A handler with rotation at 3 files of 10 bytes, sequence 1. -/
def fh0 : FileHandler :=
  { filePath := "log", written := 0, rotate := 3, size := 10, seq := 1,
    compress := false, daily := false, out := some true }

/-- Same handler with 8 bytes already written. -/
def fh8 : FileHandler := { fh0 with written := 8 }

/-- Same handler with a nil file pointer. -/
def fhNil : FileHandler := { fh0 with out := none }

/-- Same handler with rotation disabled. -/
def fhRot0 : FileHandler := { fh0 with rotate := 0 }

/-- Disk where the live file and all three retirement slots exist. -/
def fsC4 : FS :=
  { files := [("log", 0), ("log.1", 1), ("log.2", 2), ("log.3", 3)],
    nextId := 4 }

/-- Disk where the live file and only the first retirement slot exist. -/
def fsC4b : FS := { files := [("log", 0), ("log.1", 1)], nextId := 2 }

/-! Claim theorems. -/

/-- C5: when the underlying file write accepts fewer bytes than
submitted without returning an error, Write returns the accepted count
together with an errors.New whose message names the target file path,
and performs no retry: handler and file system are exactly as before
the call and the rotation branch is never reached. -/
theorem short_write_reports_path_error (fh : FileHandler) (fs : FS)
    (b : List Nat) (outc : WriteOutcome) (fault : Fault)
    (herr : outc.err = none) (hn : outc.n < b.length) :
    fh.Write fs b outc fault =
      { fh := fh, fs := fs, n := outc.n,
        err := some (Err.errNew ("Unable to write all bytes to " ++ fh.filePath)),
        rotated := false } := by
  simp [FileHandler.Write, herr, hn]

/-- Witness for C5 at a concrete short write: 1 of 2 bytes accepted. -/
theorem short_write_reports_path_error_witness :
    fh0.Write fs0 [7, 7] { n := 1, err := none } Fault.noFault =
      { fh := fh0, fs := fs0, n := 1,
        err := some (Err.errNew ("Unable to write all bytes to " ++ fh0.filePath)),
        rotated := false } :=
  short_write_reports_path_error fh0 fs0 [7, 7] { n := 1, err := none }
    Fault.noFault rfl (by decide)

/-- C10: when the underlying write returns an error, or accepts fewer
bytes than submitted (the short-write error), Write leaves the handler
and the file system unchanged and never reaches the rotation branch. -/
theorem failed_write_leaves_state_unchanged (fh : FileHandler) (fs : FS)
    (b : List Nat) (outc : WriteOutcome) (fault : Fault)
    (h : outc.err.isSome = true ∨ (outc.err = none ∧ outc.n < b.length)) :
    (fh.Write fs b outc fault).fh = fh ∧
    (fh.Write fs b outc fault).fs = fs ∧
    (fh.Write fs b outc fault).rotated = false := by
  rcases h with h | ⟨h1, h2⟩
  · obtain ⟨e, he⟩ := Option.isSome_iff_exists.mp h
    simp [FileHandler.Write, he]
  · simp [FileHandler.Write, h1, h2]

/-- Witness for C10 at a concrete failing underlying write. -/
theorem failed_write_leaves_state_unchanged_witness :
    (fh8.Write fs0 [7] { n := 0, err := some "disk full" } Fault.noFault).fh = fh8 ∧
    (fh8.Write fs0 [7] { n := 0, err := some "disk full" } Fault.noFault).fs = fs0 ∧
    (fh8.Write fs0 [7] { n := 0, err := some "disk full" } Fault.noFault).rotated = false :=
  failed_write_leaves_state_unchanged fh8 fs0 [7]
    { n := 0, err := some "disk full" } Fault.noFault (Or.inl rfl)

/-- C8: Close re-enters itself while the file pointer is non-nil, so it
yields no result at any recursion depth (it does not terminate and in
particular never closes the handle, whose close call is unreachable in
the body); with a nil pointer it returns a nil error at once. -/
theorem close_recurses_forever_or_returns_nil (fh : FileHandler) :
    (fh.out.isSome = true → ∀ k, CloseFuel k fh = none) ∧
    (fh.out.isSome = false → ∀ k, CloseFuel (k + 1) fh = some none) := by
  constructor
  · intro h k
    induction k with
    | zero => rfl
    | succ k ih => simp [CloseFuel, h, ih]
  · intro h k
    simp [CloseFuel, h]

/-- Witness for C8: a live handle never yields a result; a nil handle
returns nil. -/
theorem close_recurses_forever_or_returns_nil_witness :
    CloseFuel 100 fh0 = none ∧ CloseFuel 1 fhNil = some none :=
  ⟨(close_recurses_forever_or_returns_nil fh0).1 rfl 100,
   (close_recurses_forever_or_returns_nil fhNil).2 rfl 0⟩

/-- C9 counterexample: the underlying file write is an action of the
write sequence that does NOT sit between the lock and the unlock — it
is performed before mutex.Lock — so the mutex does not serialize the
entire write-then-maybe-rotate sequence as the claim states. -/
theorem out_write_outside_lock :
    WAct.outWrite ∈ writeActs true ∧
    WAct.outWrite ∈ writeActs false ∧
    underLock WAct.outWrite (writeActs true) = false ∧
    underLock WAct.outWrite (writeActs false) = false := by
  decide

/-- C9 amended: the mutex covers the bytesWritten update, every inline
rotation step, and the body of every policy setter, so no counter
update is lost and rotation is serialized against setters and against
the locked part of other writes; but the underlying file write itself
happens before the lock is acquired. -/
theorem lock_covers_counter_rotation_and_setters :
    underLock WAct.incWritten (writeActs true) = true ∧
    underLock WAct.incWritten (writeActs false) = true ∧
    underLock WAct.rotClose (writeActs true) = true ∧
    underLock WAct.rotRename (writeActs true) = true ∧
    underLock WAct.rotOpen (writeActs true) = true ∧
    underLock WAct.setField setterActs = true ∧
    underLock WAct.outWrite (writeActs true) = false := by
  decide

/-- With rotation disabled the size predicate of Write is false, so the
file system is returned untouched and the retention count stays 0. -/
theorem write_rotate_zero (fh : FileHandler) (fs : FS) (b : List Nat)
    (outc : WriteOutcome) (fault : Fault) (h : fh.rotate = 0) :
    (fh.Write fs b outc fault).fs = fs ∧
    (fh.Write fs b outc fault).fh.rotate = 0 := by
  cases houtc : outc.err with
  | some e => simp [FileHandler.Write, houtc, h]
  | none =>
      by_cases hn : outc.n < b.length
      · simp [FileHandler.Write, houtc, hn, h]
      · simp [FileHandler.Write, houtc, hn, h]

/-- C6: with maxFiles = 0, no sequence of Write calls — whatever their
records, underlying outcomes and injected faults, hence however far the
cumulative size exceeds maxSize — ever changes the file system: nothing
is renamed and no retirement file is created. -/
theorem rotate_zero_writes_leave_fs_unchanged (fh : FileHandler)
    (fs : FS) (calls : List (List Nat × WriteOutcome × Fault))
    (h : fh.rotate = 0) :
    (writeSeq fh fs calls).2 = fs := by
  induction calls generalizing fh fs with
  | nil => rfl
  | cons c rest ih =>
      obtain ⟨b, outc, fault⟩ := c
      obtain ⟨hfs, hrot⟩ := write_rotate_zero fh fs b outc fault h
      simp only [writeSeq]
      rw [hfs]
      exact ih _ _ hrot

/-- Witness for C6: three full writes of 7 bytes against maxSize 10
with rotation disabled leave the disk exactly as it was. -/
theorem rotate_zero_writes_leave_fs_unchanged_witness :
    (writeSeq fhRot0 fs0
      [([7, 7, 7, 7, 7, 7, 7], { n := 7, err := none }, Fault.noFault),
       ([7, 7, 7, 7, 7, 7, 7], { n := 7, err := none }, Fault.noFault),
       ([7, 7, 7, 7, 7, 7, 7], { n := 7, err := none }, Fault.noFault)]).2 = fs0 :=
  rotate_zero_writes_leave_fs_unchanged fhRot0 fs0 _ rfl

/-- C7: a size-triggered rotation that completes inside Write leaves
bytesWritten at 0 when Write returns, and every fire of the daily
rotation loop resets bytesWritten to 0 whether or not its rotation
succeeded. -/
theorem written_zero_after_completed_rotation (fh : FileHandler)
    (fs : FS) (b : List Nat) (outc : WriteOutcome) (fault : Fault)
    (fh2 : FileHandler) (fs2 : FS) (fault2 : Fault)
    (h1 : (fh.Write fs b outc fault).rotated = true)
    (h2 : (fh.Write fs b outc fault).err = none) :
    (fh.Write fs b outc fault).fh.written = 0 ∧
    (fh2.rotateDailyFire fs2 fault2).1.written = 0 := by
  constructor
  · cases houtc : outc.err with
    | some e => simp [FileHandler.Write, houtc] at h1
    | none =>
        by_cases hn : outc.n < b.length
        · simp [FileHandler.Write, houtc, hn] at h1
        · rcases Bool.eq_false_or_eq_true
            (!fh.daily && decide (fh.rotate > 0) && decide (fh.size > 0)
              && decide ((fh.written + outc.n) % uintMod ≥ fh.size)) with hc | hc
          · cases herr : (FileHandler.rotateLog
                { fh with written := (fh.written + outc.n) % uintMod }
                fs fault).err with
            | some e => simp [FileHandler.Write, houtc, hn, hc, herr] at h2
            | none => simp [FileHandler.Write, houtc, hn, hc, herr]
          · simp [FileHandler.Write, houtc, hn, hc] at h1
  · cases herr : (fh2.rotateLog fs2 fault2).err with
    | some e => simp [FileHandler.rotateDailyFire, herr]
    | none => simp [FileHandler.rotateDailyFire, herr]

/-- Witness for C7 at a concrete rotating write and a concrete daily
fire with an injected rename failure. -/
theorem written_zero_after_completed_rotation_witness :
    (fh8.Write fs0 [1, 2, 3] { n := 3, err := none } Fault.noFault).fh.written = 0 ∧
    (fh0.rotateDailyFire fs0 { renameFail := true, openFail := false }).1.written = 0 :=
  written_zero_after_completed_rotation fh8 fs0 [1, 2, 3]
    { n := 3, err := none } Fault.noFault fh0 fs0
    { renameFail := true, openFail := false } (by decide) (by decide)

/-- C1: a Write whose underlying write accepts the whole record without
error adds the record length to bytesWritten (as a Go uint) under the
sink's lock, and invokes the inline rotation exactly when
not daily, rotate > 0, size > 0 and the incremented counter has reached
size; when the predicate fails the call returns the incremented state
with the file system untouched and no error, and the counter update
(and, when taken, every rotation step) lies between Lock and Unlock. -/
theorem write_increments_and_rotates_iff_predicate (fh : FileHandler)
    (fs : FS) (b : List Nat) (fault : Fault) :
    ((fh.Write fs b { n := b.length, err := none } fault).rotated = true ↔
      (fh.daily = false ∧ 0 < fh.rotate ∧ 0 < fh.size ∧
        fh.size ≤ (fh.written + b.length) % uintMod)) ∧
    ((fh.Write fs b { n := b.length, err := none } fault).rotated = false →
      fh.Write fs b { n := b.length, err := none } fault =
        { fh := { fh with written := (fh.written + b.length) % uintMod },
          fs := fs, n := b.length, err := none, rotated := false }) ∧
    underLock WAct.incWritten
      (writeActs (fh.Write fs b { n := b.length, err := none } fault).rotated) = true ∧
    underLock WAct.rotClose (writeActs true) = true ∧
    underLock WAct.rotRename (writeActs true) = true ∧
    underLock WAct.rotOpen (writeActs true) = true := by
  rcases Bool.eq_false_or_eq_true
    (!fh.daily && decide (fh.rotate > 0) && decide (fh.size > 0)
      && decide ((fh.written + b.length) % uintMod ≥ fh.size)) with hc | hc
  · have hnest : ((fh.daily = false ∧ 0 < fh.rotate) ∧ 0 < fh.size) ∧
        fh.size ≤ (fh.written + b.length) % uintMod := by
      simpa [Bool.and_eq_true, decide_eq_true_eq, Bool.not_eq_true',
        ge_iff_le] using hc
    have hprops : fh.daily = false ∧ 0 < fh.rotate ∧ 0 < fh.size ∧
        fh.size ≤ (fh.written + b.length) % uintMod :=
      ⟨hnest.1.1.1, hnest.1.1.2, hnest.1.2, hnest.2⟩
    have hrotT : (fh.Write fs b { n := b.length, err := none } fault).rotated = true := by
      cases herr : (FileHandler.rotateLog
          { fh with written := (fh.written + b.length) % uintMod }
          fs fault).err with
      | some e => simp [FileHandler.Write, lt_irrefl, hc, herr]
      | none => simp [FileHandler.Write, lt_irrefl, hc, herr]
    refine ⟨⟨fun _ => hprops, fun _ => hrotT⟩, ?_, ?_, by decide, by decide, by decide⟩
    · intro hrot
      rw [hrotT] at hrot
      cases hrot
    · rw [hrotT]
      decide
  · have heq : fh.Write fs b { n := b.length, err := none } fault =
        { fh := { fh with written := (fh.written + b.length) % uintMod },
          fs := fs, n := b.length, err := none, rotated := false } := by
      simp [FileHandler.Write, lt_irrefl, hc]
    have hrotF : (fh.Write fs b { n := b.length, err := none } fault).rotated = false := by
      rw [heq]
    refine ⟨⟨?_, ?_⟩, fun _ => heq, ?_, by decide, by decide, by decide⟩
    · intro h
      rw [hrotF] at h
      cases h
    · intro hp
      exfalso
      have : (!fh.daily && decide (fh.rotate > 0) && decide (fh.size > 0)
          && decide ((fh.written + b.length) % uintMod ≥ fh.size)) = true := by
        simp [Bool.and_eq_true, decide_eq_true_eq, Bool.not_eq_true',
          ge_iff_le, hp.1, hp.2.1, hp.2.2.1, hp.2.2.2]
      rw [this] at hc
      cases hc
    · rw [hrotF]
      decide

/-- Witness for C1 at a concrete non-rotating full write of one byte. -/
theorem write_increments_and_rotates_iff_predicate_witness :
    fh0.Write fs0 [5] { n := ([5] : List Nat).length, err := none } Fault.noFault =
      { fh := { fh0 with written := (fh0.written + ([5] : List Nat).length) % uintMod },
        fs := fs0, n := ([5] : List Nat).length, err := none, rotated := false } :=
  (write_increments_and_rotates_iff_predicate fh0 fs0 [5] Fault.noFault).2.1
    (by decide)

/-- Facts about one fault-free rotation with the live file present:
the ghost rename record, preservation of path and retention count, the
byte increment of the sequence, and existence of the reopened live
file. -/
theorem rot_once (fh : FileHandler) (fs : FS) (t : Nat)
    (h1 : 0 < fh.rotate) (hstat : fs.stat fh.filePath = some t) :
    (fh.rotateLog fs Fault.noFault).renamedTo =
      some (fh.filePath ++ "." ++ toString (usedSeq fh)) ∧
    (fh.rotateLog fs Fault.noFault).fh.filePath = fh.filePath ∧
    (fh.rotateLog fs Fault.noFault).fh.rotate = fh.rotate ∧
    (fh.rotateLog fs Fault.noFault).fh.seq = (usedSeq fh + 1) % 256 ∧
    ∃ t', (fh.rotateLog fs Fault.noFault).fs.stat fh.filePath = some t' := by
  rw [rotateLog_ok fh fs t h1 hstat]
  exact ⟨rfl, rfl, rfl, rfl, _, FS.stat_openAppendCreate_self _ _⟩

/-- C2: with a retention count of 3 and starting sequence 1, four
fault-free rotations with the live file present each time record
retirement names with suffixes 1, 2, 3 and then 1 again — the fourth
rotation wraps instead of using 4. -/
theorem four_rotations_assign_wrapped_names (fh : FileHandler) (fs : FS)
    (h3 : fh.rotate = 3) (h1 : fh.seq = 1)
    (hex : fs.existsFile fh.filePath = true) :
    (iterateRotations fh fs 4).1 =
      [some (fh.filePath ++ "." ++ toString 1),
       some (fh.filePath ++ "." ++ toString 2),
       some (fh.filePath ++ "." ++ toString 3),
       some (fh.filePath ++ "." ++ toString 1)] := by
  obtain ⟨t0, hstat0⟩ :=
    Option.isSome_iff_exists.mp (by simpa [FS.existsFile] using hex)
  have hrotpos : 0 < fh.rotate := by omega
  obtain ⟨hn1, hp1, hr1, hs1, t1, hstat1⟩ := rot_once fh fs t0 hrotpos hstat0
  set r1 := fh.rotateLog fs Fault.noFault with hr1def
  have hu1 : usedSeq fh = 1 := by simp [usedSeq, h3, h1]
  have hseq1 : r1.fh.seq = 2 := by rw [hs1, hu1]
  obtain ⟨hn2, hp2, hr2, hs2, t2, hstat2⟩ :=
    rot_once r1.fh r1.fs t1 (by rw [hr1]; omega) (by rw [hp1]; exact hstat1)
  set r2 := r1.fh.rotateLog r1.fs Fault.noFault with hr2def
  have hu2 : usedSeq r1.fh = 2 := by simp [usedSeq, hr1, h3, hseq1]
  have hseq2 : r2.fh.seq = 3 := by rw [hs2, hu2]
  obtain ⟨hn3, hp3, hr3, hs3, t3, hstat3⟩ :=
    rot_once r2.fh r2.fs t2 (by rw [hr2, hr1]; omega) (by rw [hp2]; exact hstat2)
  set r3 := r2.fh.rotateLog r2.fs Fault.noFault with hr3def
  have hu3 : usedSeq r2.fh = 3 := by simp [usedSeq, hr2, hr1, h3, hseq2]
  have hseq3 : r3.fh.seq = 4 := by rw [hs3, hu3]
  obtain ⟨hn4, hp4, hr4, hs4, t4, hstat4⟩ :=
    rot_once r3.fh r3.fs t3 (by rw [hr3, hr2, hr1]; omega) (by rw [hp3]; exact hstat3)
  have hu4 : usedSeq r3.fh = 1 := by simp [usedSeq, hr3, hr2, hr1, h3, hseq3]
  show (r1.renamedTo ::
      (r1.fh.rotateLog r1.fs Fault.noFault).renamedTo ::
      (r2.fh.rotateLog r2.fs Fault.noFault).renamedTo ::
      (r3.fh.rotateLog r3.fs Fault.noFault).renamedTo :: []) = _
  rw [hn1, hu1, hn2, hu2, hp1, hn3, hu3, hp2, hp1, hn4, hu4, hp3, hp2, hp1]

/-- Witness for C2: four rotations on a concrete one-file disk. -/
theorem four_rotations_assign_wrapped_names_witness :
    (iterateRotations fh0 fs0 4).1 =
      [some (fh0.filePath ++ "." ++ toString 1),
       some (fh0.filePath ++ "." ++ toString 2),
       some (fh0.filePath ++ "." ++ toString 3),
       some (fh0.filePath ++ "." ++ toString 1)] :=
  four_rotations_assign_wrapped_names fh0 fs0 rfl rfl (by decide)

/-- Write calls used by the C3 counterexample: three full one-byte
writes, each fault-free. -/
def c3calls : List (List Nat × WriteOutcome × Fault) :=
  [([0], { n := 1, err := none }, Fault.noFault),
   ([0], { n := 1, err := none }, Fault.noFault),
   ([0], { n := 1, err := none }, Fault.noFault)]

/-- Handler and disk produced by constructing a sink at path log with
maxSize 1, maxFiles 3 and startSequence 1 on an empty disk. -/
def c3state : Option (FileHandler × FS) :=
  afterNew (newFileHandler "log" 1 3 1 false false fsEmpty Fault.noFault)

/-- C3 counterexample: a state reached by construction followed by
three size-triggered writes has sequence 4 while maxFiles is 3, so the
sequence is outside the interval from 1 to maxFiles — the wrap to 1
only happens at the start of the next rotation, not when the value
first exceeds maxFiles. -/
theorem stored_sequence_leaves_range :
    c3state.map (fun x => (writeSeq x.1 x.2 c3calls).1.seq) = some 4 ∧
    c3state.map (fun x => (writeSeq x.1 x.2 c3calls).1.rotate) = some 3 ∧
    ¬ (4 ≤ 3) := by
  decide

/-- C3 amended: with rotation enabled, a pre-rotation sequence of at
least 1 and the live file present, the sequence value a fault-free
rotation uses in the retirement name lies in the interval from 1 to
maxFiles (the stored field, by contrast, may sit outside it between
rotations, as the counterexample shows). -/
theorem retirement_sequence_in_range (fh : FileHandler) (fs : FS)
    (t : Nat) (h1 : 0 < fh.rotate) (h2 : 1 ≤ fh.seq)
    (hstat : fs.stat fh.filePath = some t) :
    (fh.rotateLog fs Fault.noFault).renamedTo =
      some (fh.filePath ++ "." ++ toString (usedSeq fh)) ∧
    1 ≤ usedSeq fh ∧ usedSeq fh ≤ fh.rotate := by
  refine ⟨?_, ?_, ?_⟩
  · rw [rotateLog_ok fh fs t h1 hstat]
  · unfold usedSeq
    split <;> omega
  · unfold usedSeq
    split <;> omega

/-- Witness for the amended C3 at a concrete handler. -/
theorem retirement_sequence_in_range_witness :
    (fh0.rotateLog fs0 Fault.noFault).renamedTo =
      some (fh0.filePath ++ "." ++ toString (usedSeq fh0)) ∧
    1 ≤ usedSeq fh0 ∧ usedSeq fh0 ≤ fh0.rotate :=
  retirement_sequence_in_range fh0 fs0 0 (by decide) (by decide) (by decide)

/-- The probe of findSequence only stops at a candidate name that does
not exist on disk. -/
theorem findSequenceFuel_stop (fs : FS) (c : Bool) (path : String) :
    ∀ fuel q s, findSequenceFuel fs c path fuel q = some s →
      fs.existsFile (seqFileName c path s) = false := by
  intro fuel
  induction fuel with
  | zero =>
      intro q s h
      cases h
  | succ fuel ih =>
      intro q s h
      rcases Bool.eq_false_or_eq_true (fs.existsFile (seqFileName c path q)) with
        hq | hq
      · simp only [findSequenceFuel, hq, if_true] at h
        exact ih _ _ h
      · simp only [findSequenceFuel, hq, Bool.false_eq_true, if_false,
          Option.some.injEq] at h
        rw [← h]
        exact hq

/-- C4 counterexample: constructing a sink at path log with
startSequence 1 while log.1, log.2 and log.3 all exist (maxFiles = 3)
overwrites the pre-existing log.1: its content tag was 1 before
construction and is 0 (the old live file's tag) afterwards, because the
probe stops at sequence 4 and the rotation then wraps it to 1. -/
theorem startup_probe_clobbers_when_slots_full :
    (afterNew (newFileHandler "log" 10 3 1 false false fsC4 Fault.noFault)).map
      (fun x => x.2.stat "log.1") = some (some 0) ∧
    fsC4.stat "log.1" = some 1 ∧
    fsC4.stat "log" = some 0 := by
  decide

/-- Handler state of newFileHandler right after its probe, with the
sequence advanced to the probed value s (compression off). -/
def probedFH (path : String) (size rot s : Nat) (daily : Bool) : FileHandler :=
  { filePath := path, written := 0, rotate := rot, size := size, seq := s,
    compress := false, daily := daily, out := none }

/-- C4 amended: with compression off, when the probe's resulting
sequence s does not exceed maxFiles, construction retires the live
file into path.s — a slot free on disk — and the pre-existing path.1
keeps its content.  The probe cannot give that guarantee in the two
remaining cases: when s exceeds maxFiles the rotation wraps to 1 and
overwrites path.1 (the counterexample), and with compression on the
probe checks path.N.gz names while the rotation renames onto plain
path.N, so path.1 is overwritten even though the probe stopped at
sequence 1 ≤ maxFiles (final conjunct: on the disk holding log and
log.1, a compress-on construction leaves log.1 carrying the old live
file's content tag). -/
theorem startup_probe_no_clobber_below_max (path : String)
    (size rot : Nat) (daily : Bool) (fs : FS) (t1 t0 s : Nat)
    (hrot : 0 < rot)
    (hstat1 : fs.stat (path ++ "." ++ toString 1) = some t1)
    (hlive : fs.stat path = some t0)
    (hprobe : findSequenceFuel fs false path 256 1 = some s)
    (hs : s ≤ rot) :
    (∃ fh' fs', newFileHandler path size rot 1 false daily fs Fault.noFault =
        some (Except.ok (fh', fs')) ∧
      fs.stat (path ++ "." ++ toString s) = none ∧
      fs'.stat (path ++ "." ++ toString 1) = some t1 ∧
      fs'.stat (path ++ "." ++ toString s) = some t0) ∧
    (findSequenceFuel fsC4b true "log" 256 1 = some 1 ∧
      (afterNew (newFileHandler "log" 10 3 1 true false fsC4b Fault.noFault)).map
        (fun x => x.2.stat "log.1") = some (some 0) ∧
      fsC4b.stat "log.1" = some 1) := by
  refine ⟨?_, by decide, by decide, by decide⟩
  have hfree : fs.stat (path ++ "." ++ toString s) = none := by
    have hstop := findSequenceFuel_stop fs false path 256 1 s hprobe
    simp only [seqFileName, Bool.false_eq_true, if_false, FS.existsFile] at hstop
    cases hx : fs.stat (path ++ "." ++ toString s) with
    | none => rfl
    | some t =>
        rw [hx] at hstop
        cases hstop
  have hne1s : (path ++ "." ++ toString 1) ≠ (path ++ "." ++ toString s) := by
    intro h
    rw [h, hfree] at hstat1
    cases hstat1
  have hnep1 : (path ++ "." ++ toString 1) ≠ path :=
    fun h => ne_self_append_dot path (toString 1) h.symm
  have hneps : (path ++ "." ++ toString s) ≠ path :=
    fun h => ne_self_append_dot path (toString s) h.symm
  have hnot : ¬ rot < s := by omega
  have hused : usedSeq (probedFH path size rot s daily) = s := by
    simp [usedSeq, probedFH, hnot]
  have hmain : newFileHandler path size rot 1 false daily fs Fault.noFault =
      some (Except.ok
        ({ probedFH path size rot s daily with
             seq := (s + 1) % 256, out := some true },
         ((fs.removeFile path).putFile (path ++ "." ++ toString s)
           t0).openAppendCreate path)) := by
    have hrl := rotateLog_ok (probedFH path size rot s daily) fs t0 hrot hlive
    rw [hused] at hrl
    simp only [probedFH] at hrl ⊢
    simp only [newFileHandler, FileHandler.findSequence]
    rw [hprobe]
    simp only [Option.map_some']
    rw [hrl]
  refine ⟨_, _, hmain, hfree, ?_, ?_⟩
  · rw [FS.stat_openAppendCreate_ne _ _ _ hnep1, FS.stat_putFile,
      if_neg hne1s, FS.stat_removeFile_ne _ _ _ hnep1]
    exact hstat1
  · rw [FS.stat_openAppendCreate_ne _ _ _ hneps, FS.stat_putFile,
      if_pos rfl]

/-- Witness for the amended C4 on the disk holding the live file and
log.1 only: with compression off the probe stops at 2 and construction
retires the live file into log.2, leaving log.1 untouched; with
compression on the probe stops at 1 (log.1.gz is absent) and log.1 is
overwritten. -/
theorem startup_probe_no_clobber_below_max_witness :
    (∃ fh' fs', newFileHandler "log" 10 3 1 false false fsC4b Fault.noFault =
        some (Except.ok (fh', fs')) ∧
      fsC4b.stat ("log" ++ "." ++ toString 2) = none ∧
      fs'.stat ("log" ++ "." ++ toString 1) = some 1 ∧
      fs'.stat ("log" ++ "." ++ toString 2) = some 0) ∧
    (findSequenceFuel fsC4b true "log" 256 1 = some 1 ∧
      (afterNew (newFileHandler "log" 10 3 1 true false fsC4b Fault.noFault)).map
        (fun x => x.2.stat "log.1") = some (some 0) ∧
      fsC4b.stat "log.1" = some 1) :=
  startup_probe_no_clobber_below_max "log" 10 3 false fsC4b 1 0 2
    (by decide) (by decide) (by decide) (by decide) (by decide)

end Logger
